import Mathlib

/-!
Verification development for the opendrop drop-analysis engine and the
local-storage image acquirer.

The local-storage acquirer is embedded directly from
opendrop/app/common/image_acquirer/local_storage.py, and the apex-frame
rotation transforms from the MockYoungLaplaceFit in
tests/app/ift/model/analyser/test_analyser_ift_drop_analysis.py.
The IFTDropAnalysis orchestrator itself is not part of the available
sources (only its test suite is), so its step functions are modelled from
the specification, as flagged on each definition.

Scalar values (pixel coordinates, densities, timestamps, fit parameters)
are Python floats in the source; they are embedded as an arbitrary linear
ordered field K with a floor function, so that every definition stays
executable (witnesses instantiate K at the rationals, while the statements
about the trigonometric rotation matrix instantiate K at the reals with
Real.cos and Real.sin as the matrix entries).
-/

namespace OpenDrop

/-- A pixel image; rows is the number of pixel rows (numpy shape[0]). -/
structure PixelImage where
  rows : ℕ
  cols : ℕ
  data : List ℕ
deriving DecidableEq

/-- An axis-aligned rectangle in pixel space (utility.geometry.Rect2). -/
structure Rect2 (K : Type) where
  x : K
  y : K
  w : K
  h : K

/-- Immutable physical constants for one analysis run. -/
structure IFTPhysicalParameters (K : Type) where
  inner_density : K
  outer_density : K
  needle_width : K
  gravity : K

/-- Immutable annotation snapshot produced once per image. -/
structure IFTImageAnnotations (K : Type) where
  m_per_px : K
  drop_region_px : Rect2 K
  needle_region_px : Rect2 K
  drop_contour_px : List (K × K)
  needle_contours_px : List (K × K) × List (K × K)

/-- The 5 Young-Laplace fit parameters, one immutable snapshot
(MockYoungLaplaceFit exposes them as params[0]..params[4]). -/
structure FitParams (K : Type) where
  apex_x : K
  apex_y : K
  apex_radius : K
  bond_number : K
  apex_rot : K

/-- Stop flags of the fit engine: CANCELLED and UNEXPECTED_EXCEPTION bits. -/
structure StopFlags where
  cancelled : Bool
  unexpected_exception : Bool
deriving DecidableEq

/-- Transform from pixel-scaled fit-frame coordinates into the apex-aligned
rotated frame, as in MockYoungLaplaceFit.rz_from_xy: multiplication of
the vector (x, y) by the rotation matrix [[c, -s], [s, c]], where c and s
are the cosine and sine of apex_rot. -/
def rz_from_xy {K : Type} [Field K] (c s x y : K) : K × K :=
  (c * x - s * y, s * x + c * y)

/-- Transform from the apex-aligned rotated frame back to fit-frame
coordinates, as in MockYoungLaplaceFit.xy_from_rz: multiplication of the
vector (r, z) by the transpose [[c, s], [-s, c]] of the rotation matrix,
where c and s are the cosine and sine of apex_rot. -/
def xy_from_rz {K : Type} [Field K] (c s r z : K) : K × K :=
  (c * r + s * z, -s * r + c * z)

/-- Snapshot of a fit engine as seen by the orchestrator: current params,
arclength-parametrized profile and its domain, diagnostics, stop flags,
and a count of cancel requests forwarded to it. -/
structure YLFitEngine (K : Type) where
  params : FitParams K
  profile : K → K × K
  profile_domain : K
  objective : K
  residuals : List K
  stop_flags : StopFlags
  cancel_calls : ℕ

/-- Status values of IFTDropAnalysis. -/
inductive Status
  | WAITING_FOR_IMAGE
  | FITTING
  | FINISHED
  | CANCELLED
  | UNEXPECTED_EXCEPTION
deriving DecidableEq

/-- Errors raised synchronously by orchestrator operations. -/
inductive AnalysisError
  | invalidState
deriving DecidableEq

/-- The injected collaborators of one IFTDropAnalysis: annotate function,
physical parameters, fit-engine factory, the four derived-quantity
functions, and the trigonometric functions of the scalar field used by
the engine to build its rotation matrix from apex_rot (cosine and sine;
Real.cos and Real.sin when K is the reals). -/
structure AnalyserConfig (K : Type) where
  annotate_image : PixelImage → IFTImageAnnotations K
  phys_params : IFTPhysicalParameters K
  create_yl_fit : List (K × K) → YLFitEngine K
  calculate_ift : K → K → K → K → K → K
  calculate_volume : K → K → K → K
  calculate_surface_area : K → K → K → K
  calculate_worthington : K → K → K → K → K → K → K
  cosF : K → K
  sinF : K → K

/-- The observable state of one IFTDropAnalysis: status, the published
image/timestamp/annotation properties, the fit engine once created, the
derived observable properties, plus a log of the contours passed to the
fit-engine factory and the number of optimise calls issued. -/
structure AnalyserState (K : Type) where
  status : Status
  bn_image : Option PixelImage
  bn_image_timestamp : Option K
  bn_image_annotations : Option (IFTImageAnnotations K)
  yl_fit : Option (YLFitEngine K)
  bn_apex_coords_px : Option (ℤ × ℤ)
  bn_apex_rot : Option K
  bn_apex_radius : Option K
  bn_bond_number : Option K
  bn_objective : Option K
  drop_contour_fit_residuals : Option (List K)
  bn_interfacial_tension : Option K
  bn_volume : Option K
  bn_surface_area : Option K
  bn_worthington : Option K
  factory_args : List (List (K × K))
  optimise_calls : ℕ

/-- Freshly constructed analysis: WAITING_FOR_IMAGE, nothing published. -/
def initState {K : Type} : AnalyserState K where
  status := Status.WAITING_FOR_IMAGE
  bn_image := none
  bn_image_timestamp := none
  bn_image_annotations := none
  yl_fit := none
  bn_apex_coords_px := none
  bn_apex_rot := none
  bn_apex_radius := none
  bn_bond_number := none
  bn_objective := none
  drop_contour_fit_residuals := none
  bn_interfacial_tension := none
  bn_volume := none
  bn_surface_area := none
  bn_worthington := none
  factory_args := []
  optimise_calls := 0

/-- Modelled from the spec: the drop contour is transformed into the fit
frame by flipping the vertical axis and offsetting by image height
(y becomes image_height - y, x unchanged). -/
def flip_contour {K : Type} [Field K] (image_rows : ℕ) (contour : List (K × K)) :
    List (K × K) :=
  contour.map fun p => (p.1, (image_rows : K) - p.2)

/-- Modelled from the spec: starting the fit (IFTDropAnalysis start fit,
missing from the sources) fails with InvalidStateError and performs no
state change unless both the image and its annotation snapshot are
available; otherwise it creates the fit engine from the vertically
flipped drop contour, starts optimise, and moves status to FITTING. -/
def startFit {K : Type} [Field K] (cfg : AnalyserConfig K) (st : AnalyserState K) :
    Except AnalysisError (AnalyserState K) :=
  match st.bn_image, st.bn_image_annotations with
  | some image, some anns =>
      let contour := flip_contour image.rows anns.drop_contour_px
      Except.ok { st with
        status := Status.FITTING
        yl_fit := some (cfg.create_yl_fit contour)
        factory_args := st.factory_args ++ [contour]
        optimise_calls := st.optimise_calls + 1 }
  | _, _ => Except.error AnalysisError.invalidState

/-- Modelled from the spec: on resolution of the scheduled image the
orchestrator publishes image and timestamp, applies the annotate function
and publishes its result, then starts the fit; all of this is skipped
entirely when the analysis is no longer WAITING_FOR_IMAGE (e.g. it was
cancelled before the image resolved). -/
def onImageReady {K : Type} [Field K] (cfg : AnalyserConfig K) (st : AnalyserState K)
    (image : PixelImage) (timestamp : K) : AnalyserState K :=
  if st.status = Status.WAITING_FOR_IMAGE then
    let st1 := { st with
      bn_image := some image
      bn_image_timestamp := some timestamp
      bn_image_annotations := some (cfg.annotate_image image) }
    match startFit cfg st1 with
    | Except.ok st2 => st2
    | Except.error _ => st1
  else
    st

/-- Log of the derived-quantity function invocations issued in one
parameter-change cycle, each entry being the exact argument tuple. -/
structure CycleLog (K : Type) where
  ift_calls : List (K × K × K × K × K)
  volume_calls : List (K × K × K)
  surface_area_calls : List (K × K × K)
  worthington_calls : List (K × K × K × K × K × K)

/-- Modelled from the spec: each params-changed notification recomputes,
from the single new FitParameters snapshot, the apex pixel coordinates
(round apex_x, round (image_height - apex_y)), apex rotation, apex
radius, bond number, objective and residuals (pass-through), then
interfacial tension, then volume and surface area, then the Worthington
number from the just-computed interfacial tension and volume. Returns
the updated state together with the log of derived-quantity calls. -/
def onParamsChangedLog {K : Type} [LinearOrderedField K] [FloorRing K]
    (cfg : AnalyserConfig K) (st : AnalyserState K) :
    AnalyserState K × CycleLog K :=
  match st.yl_fit, st.bn_image with
  | some fit, some image =>
      let p := fit.params
      let pp := cfg.phys_params
      let ift := cfg.calculate_ift pp.inner_density pp.outer_density
        p.bond_number p.apex_radius pp.gravity
      let vol := cfg.calculate_volume fit.profile_domain p.bond_number p.apex_radius
      let sa := cfg.calculate_surface_area fit.profile_domain p.bond_number p.apex_radius
      let wo := cfg.calculate_worthington pp.inner_density pp.outer_density
        pp.gravity ift vol pp.needle_width
      ({ st with
          bn_apex_coords_px :=
            some (round p.apex_x, round ((image.rows : K) - p.apex_y))
          bn_apex_rot := some p.apex_rot
          bn_apex_radius := some p.apex_radius
          bn_bond_number := some p.bond_number
          bn_objective := some fit.objective
          drop_contour_fit_residuals := some fit.residuals
          bn_interfacial_tension := some ift
          bn_volume := some vol
          bn_surface_area := some sa
          bn_worthington := some wo },
       { ift_calls :=
           [(pp.inner_density, pp.outer_density, p.bond_number, p.apex_radius, pp.gravity)]
         volume_calls := [(fit.profile_domain, p.bond_number, p.apex_radius)]
         surface_area_calls := [(fit.profile_domain, p.bond_number, p.apex_radius)]
         worthington_calls :=
           [(pp.inner_density, pp.outer_density, pp.gravity, ift, vol, pp.needle_width)] })
  | _, _ => (st, ⟨[], [], [], []⟩)

/-- Modelled from the spec: terminal status from the engine stop flags, in
priority order UNEXPECTED_EXCEPTION, then CANCELLED, then FINISHED. -/
def statusFromStopFlags (flags : StopFlags) : Status :=
  if flags.unexpected_exception then Status.UNEXPECTED_EXCEPTION
  else if flags.cancelled then Status.CANCELLED
  else Status.FINISHED

/-- Modelled from the spec: when the optimise suspension resolves while
FITTING, the terminal status is computed from the engine stop flags. -/
def onFitStop {K : Type} (st : AnalyserState K) : AnalyserState K :=
  if st.status = Status.FITTING then
    match st.yl_fit with
    | some fit => { st with status := statusFromStopFlags fit.stop_flags }
    | none => st
  else st

/-- Modelled from the spec: cancel is idempotent; while WAITING_FOR_IMAGE
it moves the status directly to CANCELLED, while FITTING it forwards one
cancel call to the fit engine, and in a terminal state it is a no-op. -/
def cancel {K : Type} (st : AnalyserState K) : AnalyserState K :=
  match st.status with
  | Status.WAITING_FOR_IMAGE => { st with status := Status.CANCELLED }
  | Status.FITTING =>
      match st.yl_fit with
      | some fit =>
          { st with yl_fit := some { fit with cancel_calls := fit.cancel_calls + 1 } }
      | none => st
  | _ => st

/-- The externally visible events driving one analysis. -/
inductive AnalyserEvent (K : Type)
  | imageReady (image : PixelImage) (timestamp : K)
  | paramsChanged
  | fitStopped
  | cancelRequested

/-- One step of the orchestrator state machine. -/
def step {K : Type} [LinearOrderedField K] [FloorRing K]
    (cfg : AnalyserConfig K) (st : AnalyserState K) : AnalyserEvent K → AnalyserState K
  | AnalyserEvent.imageReady image ts => onImageReady cfg st image ts
  | AnalyserEvent.paramsChanged => (onParamsChangedLog cfg st).1
  | AnalyserEvent.fitStopped => onFitStop st
  | AnalyserEvent.cancelRequested => cancel st

/-- Run a sequence of events from a state. -/
def run {K : Type} [LinearOrderedField K] [FloorRing K]
    (cfg : AnalyserConfig K) (st : AnalyserState K) (evs : List (AnalyserEvent K)) :
    AnalyserState K :=
  evs.foldl (step cfg) st

/-- Modelled from the spec: generate_drop_contour_fit samples the current
fit profile at points evenly spaced across the arclength domain, maps
each through xy_from_rz (with the rotation-matrix entries the cosine and
sine of the current apex_rot) into the fit frame offset by the apex
position, and undoes the vertical flip back into pixel space; it fails
with InvalidStateError when no fit has ever been started. -/
def generate_drop_contour_fit {K : Type} [Field K]
    (cfg : AnalyserConfig K) (st : AnalyserState K) (samples : ℕ) :
    Except AnalysisError (List (K × K)) :=
  match st.yl_fit, st.bn_image with
  | some fit, some image =>
      Except.ok <| (List.range samples).map fun (i : ℕ) =>
        let s := fit.profile_domain * (i : K) / ((samples : K) - 1)
        let rz := fit.profile s
        let c := cfg.cosF fit.params.apex_rot
        let sn := cfg.sinF fit.params.apex_rot
        let xy := xy_from_rz c sn rz.1 rz.2
        (fit.params.apex_x + xy.1, (image.rows : K) - (fit.params.apex_y + xy.2))
  | _, _ => Except.error AnalysisError.invalidState

/-! ## Local storage acquirer (opendrop/app/common/image_acquirer/local_storage.py) -/

/-- The filesystem and image decoder environment seen by
LocalStorageAcquirer.load_image_paths: Path.is_dir, cv2.imread (returning
no image when the file cannot be decoded), and the BGR-to-RGB colour
conversion applied to every successfully read image. -/
structure FileSystemModel where
  is_dir : String → Bool
  imread : String → Option PixelImage
  bgr2rgb : PixelImage → PixelImage

/-- The two observable properties of a LocalStorageAcquirer touched by
load_image_paths: bn_images and bn_last_loaded_paths. -/
structure LocalStorageAcquirerState where
  bn_images : List PixelImage
  bn_last_loaded_paths : List String
deriving DecidableEq

/-- The ValueError raised when an image path fails to load, carrying the
offending path. -/
inductive LoadError
  | imreadFailed (path : String)
deriving DecidableEq

/-- Lexicographic comparison on paths, as Python sorted uses on Path. -/
def pathLe (a b : String) : Bool := decide (a ≤ b)

/-- First statement of load_image_paths: drop the paths that are
directories and sort the rest in lexicographic order. -/
def sortedImagePaths (fs : FileSystemModel) (image_paths : List String) :
    List String :=
  (image_paths.filter fun p => !fs.is_dir p).mergeSort pathLe

/-- The loading loop of load_image_paths: read each image in order,
convert it from BGR to RGB and collect it, raising ValueError at the
first path whose file cannot be decoded. -/
def loadImages (fs : FileSystemModel) : List String → Except LoadError (List PixelImage)
  | [] => Except.ok []
  | p :: rest =>
      match fs.imread p with
      | none => Except.error (LoadError.imreadFailed p)
      | some image => (loadImages fs rest).map fun images => fs.bgr2rgb image :: images

/-- LocalStorageAcquirer.load_image_paths: filter out directories, sort,
load every image (raising ValueError on the first undecodable file), and
only then set bn_images and bn_last_loaded_paths. The new state does not
depend on the old one; a raised error leaves the caller state untouched
because both set calls happen after the whole loop. -/
def load_image_paths (fs : FileSystemModel) (image_paths : List String) :
    Except LoadError LocalStorageAcquirerState :=
  let sorted := sortedImagePaths fs image_paths
  match loadImages fs sorted with
  | Except.error e => Except.error e
  | Except.ok images =>
      Except.ok { bn_images := images, bn_last_loaded_paths := sorted }

/-- The state after calling load_image_paths on an acquirer in state st:
unchanged when a ValueError was raised, the published state otherwise. -/
def apply_load_image_paths (fs : FileSystemModel) (st : LocalStorageAcquirerState)
    (image_paths : List String) : LocalStorageAcquirerState :=
  match load_image_paths fs image_paths with
  | Except.error _ => st
  | Except.ok st' => st'

/-! ## Concrete fixtures used by the witness theorems -/

/-- A one-row test image. -/
def testImage : PixelImage := ⟨1, 1, [0]⟩

/-- A trivial rectangle. -/
def testRect : Rect2 ℚ := ⟨0, 0, 1, 1⟩

/-- A small annotation snapshot. -/
def testAnns : IFTImageAnnotations ℚ where
  m_per_px := 1
  drop_region_px := testRect
  needle_region_px := testRect
  drop_contour_px := [(0, 0), (1, 1)]
  needle_contours_px := ([], [])

/-- Concrete fit parameters. -/
def testParams : FitParams ℚ := ⟨0, 0, 2, 5, 0⟩

/-- A concrete fit-engine snapshot. -/
def testFit : YLFitEngine ℚ where
  params := testParams
  profile := fun s => (s, s)
  profile_domain := 4
  objective := 7
  residuals := [1, 2]
  stop_flags := ⟨false, false⟩
  cancel_calls := 0

/-- A concrete analyser configuration over the rationals. -/
def testCfg : AnalyserConfig ℚ where
  annotate_image := fun _ => testAnns
  phys_params := ⟨1000, 0, 7176 / 10000, 98 / 10⟩
  create_yl_fit := fun _ => testFit
  calculate_ift := fun a b c d e => a + b + c + d + e
  calculate_volume := fun a b c => a + b + c
  calculate_surface_area := fun a b c => a * b * c
  calculate_worthington := fun a b c d e f => a + b + c + d + e + f
  cosF := fun _ => 1
  sinF := fun _ => 0

/-- A concrete state in the FITTING status with image, annotation snapshot
and fit engine available. -/
def fittingState : AnalyserState ℚ :=
  { initState with
    status := Status.FITTING
    bn_image := some testImage
    bn_image_timestamp := some 321
    bn_image_annotations := some testAnns
    yl_fit := some testFit
    factory_args := [flip_contour testImage.rows testAnns.drop_contour_px]
    optimise_calls := 1 }

/-- The invariant backing the one-fit-per-analysis claim: the fit-engine
factory has been invoked at most once, never before the analysis left
WAITING_FOR_IMAGE, and only with the image and annotation snapshot
already available. -/
def factoryInv {K : Type} (st : AnalyserState K) : Prop :=
  st.factory_args.length ≤ 1 ∧
  (st.status = Status.WAITING_FOR_IMAGE → st.factory_args = []) ∧
  (st.factory_args ≠ [] → st.bn_image ≠ none ∧ st.bn_image_annotations ≠ none)

/-- A filesystem on which every path is a directory and nothing decodes
as an image. -/
def dirFS : FileSystemModel where
  is_dir := fun _ => true
  imread := fun _ => none
  bgr2rgb := id

/-- A filesystem with no directories on which nothing decodes. -/
def failFS : FileSystemModel where
  is_dir := fun _ => false
  imread := fun _ => none
  bgr2rgb := id

/-- A filesystem on which only the path d is a directory and every file
decodes to the one-pixel test image. -/
def okFS : FileSystemModel where
  is_dir := fun p => decide (p = "d")
  imread := fun _ => some ⟨1, 1, [0]⟩
  bgr2rgb := id

/-- An acquirer state with previously published images and paths. -/
def oldState : LocalStorageAcquirerState := ⟨[⟨1, 1, [0]⟩], ["old"]⟩

/-! ## Theorems -/

/-- C5: for every apex_rot, the transform rz_from_xy built from the
rotation matrix of apex_rot and xy_from_rz built from its transpose are
mutually inverse, and at apex_rot = 0 both transforms are the identity. -/
theorem rz_xy_transforms_mutually_inverse (apex_rot x y r z : ℝ) :
    rz_from_xy (Real.cos apex_rot) (Real.sin apex_rot)
        (xy_from_rz (Real.cos apex_rot) (Real.sin apex_rot) r z).1
        (xy_from_rz (Real.cos apex_rot) (Real.sin apex_rot) r z).2 = (r, z) ∧
    xy_from_rz (Real.cos apex_rot) (Real.sin apex_rot)
        (rz_from_xy (Real.cos apex_rot) (Real.sin apex_rot) x y).1
        (rz_from_xy (Real.cos apex_rot) (Real.sin apex_rot) x y).2 = (x, y) ∧
    rz_from_xy (Real.cos 0) (Real.sin 0) x y = (x, y) ∧
    xy_from_rz (Real.cos 0) (Real.sin 0) r z = (r, z) := by
  have h := Real.sin_sq_add_cos_sq apex_rot
  refine ⟨?_, ?_, ?_, ?_⟩
  · simp only [rz_from_xy, xy_from_rz, Prod.ext_iff]
    exact ⟨by linear_combination r * h, by linear_combination z * h⟩
  · simp only [rz_from_xy, xy_from_rz, Prod.ext_iff]
    exact ⟨by linear_combination x * h, by linear_combination y * h⟩
  · simp [rz_from_xy, Real.cos_zero, Real.sin_zero]
  · simp [xy_from_rz, Real.cos_zero, Real.sin_zero]

/-- C1: while FITTING, a params-changed notification publishes apex pixel
coordinates equal to (round apex_x, round (image_rows - apex_y)) computed
from the engine's current FitParameters snapshot. -/
theorem apex_coords_from_params_snapshot {K : Type} [LinearOrderedField K] [FloorRing K]
    (cfg : AnalyserConfig K) (st : AnalyserState K) (fit : YLFitEngine K)
    (image : PixelImage) (_hs : st.status = Status.FITTING)
    (hf : st.yl_fit = some fit) (hi : st.bn_image = some image) :
    (step cfg st AnalyserEvent.paramsChanged).bn_apex_coords_px
      = some (round fit.params.apex_x, round ((image.rows : K) - fit.params.apex_y)) := by
  simp [step, onParamsChangedLog, hf, hi]

/-- Witness for C1 at a concrete fitting state over the rationals. -/
theorem apex_coords_from_params_snapshot_witness :
    (step testCfg fittingState AnalyserEvent.paramsChanged).bn_apex_coords_px
      = some (0, 1) := by
  have h := apex_coords_from_params_snapshot testCfg fittingState testFit testImage
    rfl rfl rfl
  simpa [testFit, testParams, testImage] using h

/-- C2: when the optimise suspension resolves while FITTING, the terminal
status is UNEXPECTED_EXCEPTION if that stop bit is set (even when the
CANCELLED bit is also set), else CANCELLED if that bit is set, else
FINISHED when the stop flags are zero. -/
theorem fit_stop_status_precedence {K : Type} [LinearOrderedField K] [FloorRing K]
    (cfg : AnalyserConfig K) (st : AnalyserState K) (fit : YLFitEngine K)
    (hs : st.status = Status.FITTING) (hf : st.yl_fit = some fit) :
    (fit.stop_flags.unexpected_exception = true →
        (step cfg st AnalyserEvent.fitStopped).status = Status.UNEXPECTED_EXCEPTION) ∧
    (fit.stop_flags.unexpected_exception = false → fit.stop_flags.cancelled = true →
        (step cfg st AnalyserEvent.fitStopped).status = Status.CANCELLED) ∧
    (fit.stop_flags = ⟨false, false⟩ →
        (step cfg st AnalyserEvent.fitStopped).status = Status.FINISHED) := by
  refine ⟨fun h1 => ?_, fun h1 h2 => ?_, fun h1 => ?_⟩ <;>
    simp [step, onFitStop, hs, hf, statusFromStopFlags, h1, *]

/-- Witness for C2: both stop bits set resolves to UNEXPECTED_EXCEPTION. -/
theorem fit_stop_status_precedence_witness :
    (step testCfg
        { fittingState with yl_fit := some { testFit with stop_flags := ⟨true, true⟩ } }
        AnalyserEvent.fitStopped).status = Status.UNEXPECTED_EXCEPTION :=
  (fit_stop_status_precedence testCfg _ _ rfl rfl).1 rfl

/-- C8: in one parameter-change cycle each derived-quantity function is
invoked exactly once with exactly its documented argument tuple, its
return value is published verbatim, and the interfacial tension and
volume passed to the Worthington function are the ones computed in the
same cycle from the same snapshot. -/
theorem derived_quantity_call_contract {K : Type} [LinearOrderedField K] [FloorRing K]
    (cfg : AnalyserConfig K) (st : AnalyserState K) (fit : YLFitEngine K)
    (image : PixelImage) (_hs : st.status = Status.FITTING)
    (hf : st.yl_fit = some fit) (hi : st.bn_image = some image) :
    (onParamsChangedLog cfg st).2.ift_calls
      = [(cfg.phys_params.inner_density, cfg.phys_params.outer_density,
          fit.params.bond_number, fit.params.apex_radius, cfg.phys_params.gravity)] ∧
    (onParamsChangedLog cfg st).2.volume_calls
      = [(fit.profile_domain, fit.params.bond_number, fit.params.apex_radius)] ∧
    (onParamsChangedLog cfg st).2.surface_area_calls
      = [(fit.profile_domain, fit.params.bond_number, fit.params.apex_radius)] ∧
    (onParamsChangedLog cfg st).2.worthington_calls
      = [(cfg.phys_params.inner_density, cfg.phys_params.outer_density,
          cfg.phys_params.gravity,
          cfg.calculate_ift cfg.phys_params.inner_density cfg.phys_params.outer_density
            fit.params.bond_number fit.params.apex_radius cfg.phys_params.gravity,
          cfg.calculate_volume fit.profile_domain fit.params.bond_number
            fit.params.apex_radius,
          cfg.phys_params.needle_width)] ∧
    (onParamsChangedLog cfg st).1.bn_interfacial_tension
      = some (cfg.calculate_ift cfg.phys_params.inner_density
          cfg.phys_params.outer_density fit.params.bond_number fit.params.apex_radius
          cfg.phys_params.gravity) ∧
    (onParamsChangedLog cfg st).1.bn_volume
      = some (cfg.calculate_volume fit.profile_domain fit.params.bond_number
          fit.params.apex_radius) ∧
    (onParamsChangedLog cfg st).1.bn_surface_area
      = some (cfg.calculate_surface_area fit.profile_domain fit.params.bond_number
          fit.params.apex_radius) ∧
    (onParamsChangedLog cfg st).1.bn_worthington
      = some (cfg.calculate_worthington cfg.phys_params.inner_density
          cfg.phys_params.outer_density cfg.phys_params.gravity
          (cfg.calculate_ift cfg.phys_params.inner_density cfg.phys_params.outer_density
            fit.params.bond_number fit.params.apex_radius cfg.phys_params.gravity)
          (cfg.calculate_volume fit.profile_domain fit.params.bond_number
            fit.params.apex_radius)
          cfg.phys_params.needle_width) := by
  simp [onParamsChangedLog, hf, hi]

/-- Witness for C8 at the concrete fitting state over the rationals. -/
theorem derived_quantity_call_contract_witness :
    (onParamsChangedLog testCfg fittingState).2.ift_calls
      = [((1000 : ℚ), 0, 5, 2, 98 / 10)] ∧
    (onParamsChangedLog testCfg fittingState).1.bn_worthington
      = some (1000 + 0 + 98 / 10 + (1000 + 0 + 5 + 2 + 98 / 10) + (4 + 5 + 2)
          + 7176 / 10000) := by
  have h := derived_quantity_call_contract testCfg fittingState testFit testImage
    rfl rfl rfl
  exact ⟨by simpa [testCfg, testFit, testParams] using h.1,
         by simpa [testCfg, testFit, testParams] using h.2.2.2.2.2.2.2⟩

/-- C7: attempting to start the fit before both the image and its
annotation snapshot are available fails with InvalidStateError (so no
successor state is produced and nothing is mutated) and the status stays
WAITING_FOR_IMAGE. -/
theorem start_fit_before_image_fails {K : Type} [Field K]
    (cfg : AnalyserConfig K) (st : AnalyserState K)
    (hs : st.status = Status.WAITING_FOR_IMAGE)
    (h : st.bn_image = none ∨ st.bn_image_annotations = none) :
    startFit cfg st = Except.error AnalysisError.invalidState ∧
    st.status = Status.WAITING_FOR_IMAGE := by
  refine ⟨?_, hs⟩
  rcases h with h | h <;>
    rcases hi : st.bn_image with _ | image <;>
    rcases ha : st.bn_image_annotations with _ | anns <;>
    simp_all [startFit]

/-- Witness for C7 on a freshly constructed analysis. -/
theorem start_fit_before_image_fails_witness :
    startFit testCfg (initState (K := ℚ)) = Except.error AnalysisError.invalidState ∧
    (initState (K := ℚ)).status = Status.WAITING_FOR_IMAGE :=
  start_fit_before_image_fails testCfg initState rfl (Or.inl rfl)

/-- C6: once a fit has started, generate_drop_contour_fit returns a list
of exactly the requested number of sample points, and its value depends
only on the current fit engine snapshot and published image, so a second
call against the same current state returns the same sequence. -/
theorem generate_drop_contour_fit_pure {K : Type} [Field K]
    (cfg : AnalyserConfig K) (st st' : AnalyserState K) (fit : YLFitEngine K)
    (image : PixelImage) (samples : ℕ) (_hpos : 0 < samples)
    (hf : st.yl_fit = some fit) (hi : st.bn_image = some image)
    (hf' : st'.yl_fit = st.yl_fit) (hi' : st'.bn_image = st.bn_image) :
    (∃ pts, generate_drop_contour_fit cfg st samples = Except.ok pts ∧
        pts.length = samples) ∧
    generate_drop_contour_fit cfg st' samples = generate_drop_contour_fit cfg st samples := by
  constructor
  · have hgen : generate_drop_contour_fit cfg st samples
        = Except.ok ((List.range samples).map fun (i : ℕ) =>
            let s := fit.profile_domain * (i : K) / ((samples : K) - 1)
            let rz := fit.profile s
            let c := cfg.cosF fit.params.apex_rot
            let sn := cfg.sinF fit.params.apex_rot
            let xy := xy_from_rz c sn rz.1 rz.2
            (fit.params.apex_x + xy.1, (image.rows : K) - (fit.params.apex_y + xy.2))) := by
      simp only [generate_drop_contour_fit, hf, hi]
    exact ⟨_, hgen, by simp⟩
  · simp [generate_drop_contour_fit, hf, hi, hf', hi']

/-- Witness for C6 at the concrete fitting state with 100 samples. -/
theorem generate_drop_contour_fit_pure_witness :
    (∃ pts, generate_drop_contour_fit testCfg fittingState 100 = Except.ok pts ∧
        pts.length = 100) ∧
    generate_drop_contour_fit testCfg fittingState 100
      = generate_drop_contour_fit testCfg fittingState 100 :=
  generate_drop_contour_fit_pure testCfg fittingState fittingState testFit testImage 100
    (by decide) rfl rfl rfl rfl

/-- Helper: from a CANCELLED state, no event changes the status or the
image, timestamp and annotation properties. -/
theorem cancelled_step_preserves {K : Type} [LinearOrderedField K] [FloorRing K]
    (cfg : AnalyserConfig K) (st : AnalyserState K)
    (h : st.status = Status.CANCELLED) (e : AnalyserEvent K) :
    (step cfg st e).status = Status.CANCELLED ∧
    (step cfg st e).bn_image = st.bn_image ∧
    (step cfg st e).bn_image_timestamp = st.bn_image_timestamp ∧
    (step cfg st e).bn_image_annotations = st.bn_image_annotations := by
  cases e with
  | imageReady image ts => simp [step, onImageReady, h]
  | paramsChanged =>
      rcases hf : st.yl_fit with _ | fit <;>
        rcases hi : st.bn_image with _ | image <;>
        simp [step, onParamsChangedLog, hf, hi, h]
  | fitStopped => simp [step, onFitStop, h]
  | cancelRequested => simp [step, cancel, h]

/-- Helper: from a CANCELLED state, no event sequence changes the status
or the image, timestamp and annotation properties. -/
theorem cancelled_run_preserves {K : Type} [LinearOrderedField K] [FloorRing K]
    (cfg : AnalyserConfig K) (st : AnalyserState K)
    (h : st.status = Status.CANCELLED) (evs : List (AnalyserEvent K)) :
    (run cfg st evs).status = Status.CANCELLED ∧
    (run cfg st evs).bn_image = st.bn_image ∧
    (run cfg st evs).bn_image_timestamp = st.bn_image_timestamp ∧
    (run cfg st evs).bn_image_annotations = st.bn_image_annotations := by
  induction evs generalizing st with
  | nil => exact ⟨h, rfl, rfl, rfl⟩
  | cons e evs ih =>
      obtain ⟨h1, h2, h3, h4⟩ := cancelled_step_preserves cfg st h e
      obtain ⟨g1, g2, g3, g4⟩ := ih (step cfg st e) h1
      exact ⟨g1, by rw [run, List.foldl_cons] at *; rw [g2, h2],
        by rw [run, List.foldl_cons] at *; rw [g3, h3],
        by rw [run, List.foldl_cons] at *; rw [g4, h4]⟩

/-- C4: cancelling an analysis that is WAITING_FOR_IMAGE makes the status
CANCELLED immediately, and afterwards no event sequence (in particular a
later resolution of the scheduled image) ever changes the image,
timestamp or annotation properties, which stay as they were before the
cancellation. -/
theorem cancel_while_waiting_suppresses {K : Type} [LinearOrderedField K] [FloorRing K]
    (cfg : AnalyserConfig K) (st : AnalyserState K)
    (hs : st.status = Status.WAITING_FOR_IMAGE) (evs : List (AnalyserEvent K)) :
    (cancel st).status = Status.CANCELLED ∧
    (run cfg (cancel st) evs).status = Status.CANCELLED ∧
    (run cfg (cancel st) evs).bn_image = st.bn_image ∧
    (run cfg (cancel st) evs).bn_image_timestamp = st.bn_image_timestamp ∧
    (run cfg (cancel st) evs).bn_image_annotations = st.bn_image_annotations := by
  have hc : (cancel st).status = Status.CANCELLED := by simp [cancel, hs]
  have hfields : (cancel st).bn_image = st.bn_image ∧
      (cancel st).bn_image_timestamp = st.bn_image_timestamp ∧
      (cancel st).bn_image_annotations = st.bn_image_annotations := by
    simp [cancel, hs]
  obtain ⟨g1, g2, g3, g4⟩ := cancelled_run_preserves cfg (cancel st) hc evs
  exact ⟨hc, g1, by rw [g2, hfields.1], by rw [g3, hfields.2.1],
    by rw [g4, hfields.2.2]⟩

/-- Witness for C4: cancelling the fresh analysis, then letting the
scheduled image resolve, publishes nothing. -/
theorem cancel_while_waiting_suppresses_witness :
    (cancel (initState (K := ℚ))).status = Status.CANCELLED ∧
    (run testCfg (cancel initState)
        [AnalyserEvent.imageReady testImage 321]).status = Status.CANCELLED ∧
    (run testCfg (cancel initState)
        [AnalyserEvent.imageReady testImage 321]).bn_image = none ∧
    (run testCfg (cancel initState)
        [AnalyserEvent.imageReady testImage 321]).bn_image_timestamp = none ∧
    (run testCfg (cancel initState)
        [AnalyserEvent.imageReady testImage 321]).bn_image_annotations = none := by
  have h := cancel_while_waiting_suppresses testCfg (initState (K := ℚ)) rfl
    [AnalyserEvent.imageReady testImage 321]
  simpa [initState] using h

/-- Helper: the stop-flag status map never yields WAITING_FOR_IMAGE. -/
theorem statusFromStopFlags_ne_waiting (flags : StopFlags) :
    statusFromStopFlags flags ≠ Status.WAITING_FOR_IMAGE := by
  unfold statusFromStopFlags
  split_ifs <;> simp

/-- Helper: every event preserves the factory invariant. -/
theorem factoryInv_step {K : Type} [LinearOrderedField K] [FloorRing K]
    (cfg : AnalyserConfig K) (st : AnalyserState K) (hinv : factoryInv st)
    (e : AnalyserEvent K) : factoryInv (step cfg st e) := by
  obtain ⟨h1, h2, h3⟩ := hinv
  cases e with
  | imageReady image ts =>
      by_cases hw : st.status = Status.WAITING_FOR_IMAGE
      · have hargs := h2 hw
        simp [step, onImageReady, hw, startFit, factoryInv, hargs]
      · have hid : step cfg st (AnalyserEvent.imageReady image ts) = st := by
          simp [step, onImageReady, hw]
        rw [hid]
        exact ⟨h1, h2, h3⟩
  | paramsChanged =>
      rcases hf : st.yl_fit with _ | fit <;>
        rcases hi : st.bn_image with _ | image <;>
        simp_all [step, onParamsChangedLog, factoryInv]
  | fitStopped =>
      by_cases hw : st.status = Status.FITTING
      · rcases hf : st.yl_fit with _ | fit
        · have hid : step cfg st AnalyserEvent.fitStopped = st := by
            simp [step, onFitStop, hw, hf]
          rw [hid]
          exact ⟨h1, h2, h3⟩
        · refine ⟨by simpa [step, onFitStop, hw, hf] using h1, ?_, ?_⟩
          · intro hcontra
            exact absurd (by simpa [step, onFitStop, hw, hf] using hcontra)
              (statusFromStopFlags_ne_waiting fit.stop_flags)
          · intro hne
            have := h3 (by simpa [step, onFitStop, hw, hf] using hne)
            simpa [step, onFitStop, hw, hf] using this
      · have hid : step cfg st AnalyserEvent.fitStopped = st := by
          simp [step, onFitStop, hw]
        rw [hid]
        exact ⟨h1, h2, h3⟩
  | cancelRequested =>
      rcases hst : st.status <;>
        rcases hf : st.yl_fit with _ | fit <;>
        simp_all [step, cancel, factoryInv]

/-- Helper: the factory invariant holds along every run from a fresh
analysis. -/
theorem factoryInv_run {K : Type} [LinearOrderedField K] [FloorRing K]
    (cfg : AnalyserConfig K) (evs : List (AnalyserEvent K)) :
    factoryInv (run cfg initState evs) := by
  suffices h : ∀ st : AnalyserState K, factoryInv st → factoryInv (run cfg st evs) by
    exact h initState (by simp [factoryInv, initState])
  induction evs with
  | nil => exact fun st h => h
  | cons e evs ih =>
      intro st h
      rw [run, List.foldl_cons]
      exact ih _ (factoryInv_step cfg st h e)

/-- C3: the contour handed to the fit-engine factory is drop_contour_px
with every y-coordinate replaced by image_height - y, the factory is
invoked exactly once when the image resolves, at most once over any whole
run, and only with the image and annotation snapshot available. -/
theorem yl_fit_factory_contract {K : Type} [LinearOrderedField K] [FloorRing K]
    (cfg : AnalyserConfig K) (image : PixelImage) (ts : K)
    (evs : List (AnalyserEvent K)) :
    (step cfg initState (AnalyserEvent.imageReady image ts)).factory_args
        = [(cfg.annotate_image image).drop_contour_px.map
            (fun p => (p.1, (image.rows : K) - p.2))] ∧
    (run cfg initState evs).factory_args.length ≤ 1 ∧
    ((run cfg initState evs).factory_args ≠ [] →
        (run cfg initState evs).bn_image ≠ none ∧
        (run cfg initState evs).bn_image_annotations ≠ none) := by
  have hinv := factoryInv_run cfg evs
  refine ⟨?_, hinv.1, hinv.2.2⟩
  simp [step, onImageReady, initState, startFit, flip_contour]

/-- Witness for C3 with the concrete configuration: one factory call with
the flipped contour after the image resolves. -/
theorem yl_fit_factory_contract_witness :
    (step testCfg initState (AnalyserEvent.imageReady testImage 321)).factory_args
        = [[((0 : ℚ), 1), (1, 0)]] ∧
    (run testCfg initState [AnalyserEvent.imageReady testImage 321]).factory_args.length
        ≤ 1 := by
  have h := yl_fit_factory_contract testCfg testImage 321
    [AnalyserEvent.imageReady testImage 321]
  refine ⟨?_, h.2.1⟩
  have h1 := h.1
  simpa [testCfg, testAnns, testImage] using h1

/-- Helper: path comparison is transitive. -/
theorem pathLe_trans (a b c : String) :
    pathLe a b = true → pathLe b c = true → pathLe a c = true := by
  simp only [pathLe, decide_eq_true_eq]
  exact le_trans

/-- Helper: path comparison is total. -/
theorem pathLe_total (a b : String) : (pathLe a b || pathLe b a) = true := by
  simp only [pathLe, Bool.or_eq_true, decide_eq_true_eq]
  exact le_total a b

/-- Helper: the retained paths are sorted lexicographically. -/
theorem sortedImagePaths_sorted (fs : FileSystemModel) (ps : List String) :
    List.Sorted (fun a b => a ≤ b) (sortedImagePaths fs ps) := by
  have h := List.sorted_mergeSort pathLe_trans pathLe_total
    (ps.filter fun p => !fs.is_dir p)
  exact h.imp fun hab => by simpa [pathLe] using hab

/-- Helper: the retained paths are a permutation of the non-directory
input paths. -/
theorem sortedImagePaths_perm (fs : FileSystemModel) (ps : List String) :
    (sortedImagePaths fs ps).Perm (ps.filter fun p => !fs.is_dir p) :=
  List.mergeSort_perm _ pathLe

/-- Helper: the retained sorted paths do not depend on the order in which
the paths were supplied. -/
theorem sortedImagePaths_eq_of_perm (fs : FileSystemModel) {ps ps' : List String}
    (h : ps.Perm ps') : sortedImagePaths fs ps = sortedImagePaths fs ps' := by
  refine List.eq_of_perm_of_sorted ?_ (sortedImagePaths_sorted fs ps)
    (sortedImagePaths_sorted fs ps')
  exact ((sortedImagePaths_perm fs ps).trans (h.filter _)).trans
    (sortedImagePaths_perm fs ps').symm

/-- Helper: the loading loop raises ValueError when some path in the list
fails to decode. -/
theorem loadImages_error (fs : FileSystemModel) (l : List String)
    (h : ∃ p ∈ l, fs.imread p = none) :
    ∃ q, loadImages fs l = Except.error (LoadError.imreadFailed q) := by
  induction l with
  | nil => simp at h
  | cons p rest ih =>
      rcases hp : fs.imread p with _ | image
      · exact ⟨p, by simp [loadImages, hp]⟩
      · obtain ⟨q, hq, hqn⟩ := h
        rcases List.mem_cons.mp hq with rfl | hq'
        · rw [hp] at hqn
          cases hqn
        · obtain ⟨q', hq'eq⟩ := ih ⟨q, hq', hqn⟩
          exact ⟨q', by simp [loadImages, hp, hq'eq, Except.map]⟩

/-- Helper: the loading loop returns one converted image per path, in
order, when every path decodes. -/
theorem loadImages_ok (fs : FileSystemModel) (l : List String)
    (h : ∀ p ∈ l, fs.imread p ≠ none) :
    loadImages fs l
      = Except.ok (l.map fun p => fs.bgr2rgb ((fs.imread p).getD ⟨0, 0, []⟩)) := by
  induction l with
  | nil => rfl
  | cons p rest ih =>
      rcases hp : fs.imread p with _ | image
      · exact absurd hp (h p (by simp))
      · rw [List.map_cons]
        simp only [loadImages, hp]
        rw [ih fun q hq => h q (by simp [hq])]
        simp [hp, Except.map]

/-- C9 counterexample: a directory path cannot be decoded as an image
(imread returns none for it), yet load_image_paths neither raises
ValueError nor leaves the state unchanged: the path is silently filtered
out and both properties are overwritten with empty values. -/
theorem load_image_paths_error_atomic_counterexample :
    dirFS.imread "somedir" = none ∧
    load_image_paths dirFS ["somedir"]
      = Except.ok { bn_images := [], bn_last_loaded_paths := [] } ∧
    apply_load_image_paths dirFS oldState ["somedir"] ≠ oldState := by
  refine ⟨rfl, ?_, ?_⟩
  · simp [load_image_paths, sortedImagePaths, dirFS, loadImages]
  · simp [apply_load_image_paths, load_image_paths, sortedImagePaths, dirFS,
      loadImages, oldState]

/-- C9 (amended): when some supplied non-directory path fails to decode as
an image, load_image_paths raises ValueError and both bn_images and
bn_last_loaded_paths are left unchanged; no partially loaded image list
is ever published. -/
theorem load_image_paths_error_atomic (fs : FileSystemModel)
    (st : LocalStorageAcquirerState) (image_paths : List String) (p : String)
    (hmem : p ∈ image_paths) (hdir : fs.is_dir p = false)
    (hfail : fs.imread p = none) :
    (∃ q, load_image_paths fs image_paths = Except.error (LoadError.imreadFailed q)) ∧
    apply_load_image_paths fs st image_paths = st := by
  have hmem' : p ∈ sortedImagePaths fs image_paths := by
    rw [(sortedImagePaths_perm fs image_paths).mem_iff, List.mem_filter]
    exact ⟨hmem, by simp [hdir]⟩
  obtain ⟨q, hq⟩ := loadImages_error fs _ ⟨p, hmem', hfail⟩
  refine ⟨⟨q, ?_⟩, ?_⟩
  · simp [load_image_paths, hq]
  · simp [apply_load_image_paths, load_image_paths, hq]

/-- Witness for the amended C9 on a concrete undecodable file path. -/
theorem load_image_paths_error_atomic_witness :
    (∃ q, load_image_paths failFS ["b"] = Except.error (LoadError.imreadFailed q)) ∧
    apply_load_image_paths failFS oldState ["b"] = oldState :=
  load_image_paths_error_atomic failFS oldState ["b"] "b" (by simp) rfl rfl

/-- C10: load_image_paths drops directory paths, processes the remaining
file paths in lexicographic order independently of the supplied order,
publishes via bn_images one converted image per retained path in that
order, and sets bn_last_loaded_paths to the retained paths in the same
sorted order. -/
theorem load_image_paths_sorted_publication (fs : FileSystemModel)
    (image_paths image_paths' : List String)
    (hperm : image_paths.Perm image_paths')
    (hok : ∀ p ∈ image_paths, fs.is_dir p = false → fs.imread p ≠ none) :
    ∃ st', load_image_paths fs image_paths = Except.ok st' ∧
      load_image_paths fs image_paths' = Except.ok st' ∧
      st'.bn_last_loaded_paths = sortedImagePaths fs image_paths ∧
      List.Sorted (fun a b => a ≤ b) st'.bn_last_loaded_paths ∧
      st'.bn_last_loaded_paths.Perm (image_paths.filter fun p => !fs.is_dir p) ∧
      st'.bn_images = st'.bn_last_loaded_paths.map
        (fun p => fs.bgr2rgb ((fs.imread p).getD ⟨0, 0, []⟩)) := by
  have hok' : ∀ p ∈ sortedImagePaths fs image_paths, fs.imread p ≠ none := by
    intro p hp
    have hp' := (sortedImagePaths_perm fs image_paths).mem_iff.mp hp
    rw [List.mem_filter] at hp'
    exact hok p hp'.1 (by simpa using hp'.2)
  have hload := loadImages_ok fs _ hok'
  have heq : sortedImagePaths fs image_paths' = sortedImagePaths fs image_paths :=
    (sortedImagePaths_eq_of_perm fs hperm).symm
  refine ⟨LocalStorageAcquirerState.mk
      ((sortedImagePaths fs image_paths).map
        (fun p => fs.bgr2rgb ((fs.imread p).getD ⟨0, 0, []⟩)))
      (sortedImagePaths fs image_paths), ?_, ?_, rfl,
    sortedImagePaths_sorted fs image_paths, sortedImagePaths_perm fs image_paths, rfl⟩
  · simp [load_image_paths, hload]
  · rw [load_image_paths]
    simp only [heq, hload]

/-- Witness for C10: two orders of the same two file paths produce the
same published state. -/
theorem load_image_paths_sorted_publication_witness :
    ∃ st', load_image_paths okFS ["b", "a"] = Except.ok st' ∧
      load_image_paths okFS ["a", "b"] = Except.ok st' ∧
      st'.bn_last_loaded_paths = sortedImagePaths okFS ["b", "a"] ∧
      List.Sorted (fun a b => a ≤ b) st'.bn_last_loaded_paths ∧
      st'.bn_last_loaded_paths.Perm (["b", "a"].filter fun p => !okFS.is_dir p) ∧
      st'.bn_images = st'.bn_last_loaded_paths.map
        (fun p => okFS.bgr2rgb ((okFS.imread p).getD ⟨0, 0, []⟩)) :=
  load_image_paths_sorted_publication okFS ["b", "a"] ["a", "b"]
    (List.Perm.swap "a" "b" []) (by intro p hp hd; simp [okFS])
